import Mathlib

/-!
Shallow embedding of the incident-record validation subsystem of
`src/Incidencias.py` (functions `try_parse_timestamp`, `looks_like_email`,
`vowel_ratio`, `is_gibberish`, `validate_record`), together with theorems
settling the specification claims about it.

Modelling conventions:
* Python `str` values are Lean `String`s (sequences of Unicode code points).
* `str.strip` is `pyStrip`; Python strips all Unicode whitespace, we model the
  ASCII whitespace characters, which are the ones the heuristics depend on.
* `str.isalnum`, `str.lower` and the regex classes are modelled on the Basic
  Latin characters plus the Latin accented letters named by the code and spec;
  Python's versions are Unicode-wide, but all rule outcomes proved here use
  only characters inside the modelled range.
* The float comparisons `vr < 0.15` and `frac > 0.4` are modelled as the exact
  rational comparisons against `3/20` and `2/5`.  The Python floats cannot
  disagree with the exact rationals here: the operands are quotients of small
  integers (numerator and denominator bounded by the string length), and such
  a quotient is never within the float rounding error of `0.15` or `0.4`
  without being exactly equal to it.
* Raising an exception is modelled by `Except.error`; the code's `try/except`
  is the `Except.error` branch of a `match`.
-/

/-! ## Python string primitives -/

/-- Whitespace as stripped by `str.strip` (ASCII part of Python's definition). -/
def pyIsSpace (c : Char) : Bool :=
  c == ' ' || c == '\t' || c == '\n' || c == '\r' || c == '\x0b' || c == '\x0c'

/-- Python `str.strip()`: remove leading and trailing whitespace. -/
def pyStrip (s : String) : String :=
  ⟨((s.data.dropWhile pyIsSpace).reverse.dropWhile pyIsSpace).reverse⟩

/-- The regex class `[A-Za-z]` used by `vowel_ratio`. -/
def asciiLetter (c : Char) : Bool :=
  (decide ('A' ≤ c) && decide (c ≤ 'Z')) || (decide ('a' ≤ c) && decide (c ≤ 'z'))

/-- The accented Latin letters relevant to this data set; part of the model of
Python's Unicode-wide alphabetic test. -/
def accentedLetter (c : Char) : Bool :=
  c ∈ "áéíóúàèìòùÁÉÍÓÚÀÈÌÒÙñÑçÇüÜïÏ".data

/-- Model of Python's `str.isalpha` on a single character (Basic Latin plus the
accented Latin letters above). -/
def pyIsAlpha (c : Char) : Bool := asciiLetter c || accentedLetter c

def asciiDigit (c : Char) : Bool := decide ('0' ≤ c) && decide (c ≤ '9')

/-- Model of Python's `str.isalnum` on a single character. -/
def pyIsAlnum (c : Char) : Bool := asciiDigit c || pyIsAlpha c

/-- Model of Python's `str.lower` on a single character: ASCII letters are
mapped down; the accented uppercase vowels map to their lowercase forms;
everything else (in the modelled range) is fixed. -/
def pyLower (c : Char) : Char :=
  if 'A' ≤ c ∧ c ≤ 'Z' then Char.ofNat (c.toNat + 32)
  else match c with
    | 'Á' => 'á' | 'É' => 'é' | 'Í' => 'í' | 'Ó' => 'ó' | 'Ú' => 'ú'
    | 'À' => 'à' | 'È' => 'è' | 'Ì' => 'ì' | 'Ò' => 'ò' | 'Ù' => 'ù'
    | _ => c

/-! ## `looks_like_email` — the regex search `[^@\s]+@[^@\s]+\.[^@\s]+` -/

/-- The regex class `[^@\s]`. -/
def isXchar (c : Char) : Bool := !(c == '@' || pyIsSpace c)

/-- After the `.`: the final `[^@\s]+` needs one more such character (the rest
of the string is irrelevant for `re.search`). -/
def dotThenX : List Char → Bool
  | '.' :: c :: _ => isXchar c
  | _ => false

/-- Match `[^@\s]+\.[^@\s]+` at the head of the list, with backtracking over
the length of the first run (`.` itself lies in `[^@\s]`). -/
def afterAt : List Char → Bool
  | c :: rest => isXchar c && (dotThenX rest || afterAt rest)
  | [] => false

/-- `re.search` of the email pattern: at some position, one `[^@\s]` character
(the tail of the first `+`-run) followed by `@` and then `afterAt`. -/
def searchEmail : List Char → Bool
  | c :: rest =>
    (isXchar c && (match rest with
      | '@' :: r2 => afterAt r2
      | _ => false)) || searchEmail rest
  | [] => false

/-- `looks_like_email` from the source: empty strings are not emails, otherwise
strip and search for the email-shaped substring. -/
def looks_like_email (s : String) : Bool :=
  if s = "" then false
  else searchEmail (pyStrip s).data

/-! ## `vowel_ratio` and `is_gibberish` -/

/-- `re.findall(r"[A-Za-z]", s)`: the ASCII letters of `s`, in order. -/
def ascii_letters (s : String) : List Char := s.data.filter asciiLetter

/-- `ch.lower() in "aeiouá..."` from `vowel_ratio`. -/
def isPyVowel (c : Char) : Bool := pyLower c ∈ "aeiouáéíóúàèìòù".data

/-- `vowel_ratio` from the source: vowels among the ASCII letters divided by
the number of ASCII letters; `0` for an empty string or no letters. -/
def vowel_ratio (s : String) : ℚ :=
  if s = "" then 0
  else if ascii_letters s = [] then 0
  else ((ascii_letters s).countP isPyVowel : ℚ) / ((ascii_letters s).length : ℚ)

/-- `sum(1 for ch in s if not ch.isalnum())`. -/
def non_alnum_count (s : String) : Nat := s.data.countP (fun c => !pyIsAlnum c)

/-- The regex class of consonant letters from `is_gibberish`. -/
def consonantChar (c : Char) : Bool :=
  c ∈ "bcdfghjklmnpqrstvwxyz".data || c ∈ "BCDFGHJKLMNPQRSTVWXYZ".data

/-- `re.fullmatch(r"[bcdf...XYZ]{4,}", s)`: the whole string is 4 or more
consonant letters. -/
def consonant_run (t : String) : Bool :=
  decide (4 ≤ t.length) && t.data.all consonantChar

/-- `is_gibberish` from the source: for a stripped string of length ≥ 6, flag
when the vowel ratio is below 0.15 or the non-alphanumeric fraction exceeds
0.4; independently flag a full match of 4+ consonants. -/
def is_gibberish (s : String) : Bool :=
  if s = "" then false
  else
    let t := pyStrip s
    if 6 ≤ t.length ∧ (vowel_ratio t < 3 / 20 ∨
        2 / 5 < (non_alnum_count t : ℚ) / ((max 1 t.length : ℕ) : ℚ)) then true
    else if consonant_run t then true
    else false

/-! ## Timestamp parsing — `datetime.strptime` for the formats used -/

structure PyDateTime where
  year : Nat
  month : Nat
  day : Nat
  hour : Nat
  minute : Nat
  second : Nat
deriving DecidableEq, Repr

def digitVal (c : Char) : Nat := c.toNat - 48

/-- Groups captured by the regex `strptime` builds: day, month, year, hour,
minute, second. -/
abbrev DTGroups := Nat × Nat × Nat × Nat × Nat × Nat

/-- Match a two-digit directive alternative: both characters are digits and the
value lies in the directive's range. -/
def parse2 (ok : Nat → Bool) (k : Nat → List Char → Option DTGroups) :
    List Char → Option DTGroups
  | c1 :: c2 :: rest =>
    if c1.isDigit && c2.isDigit && ok (digitVal c1 * 10 + digitVal c2) then
      k (digitVal c1 * 10 + digitVal c2) rest
    else none
  | _ => none

/-- Match a one-digit directive alternative. -/
def parse1 (ok : Nat → Bool) (k : Nat → List Char → Option DTGroups) :
    List Char → Option DTGroups
  | c1 :: rest => if c1.isDigit && ok (digitVal c1) then k (digitVal c1) rest else none
  | [] => none

/-- A numeric directive whose regex lists its two-digit alternatives before the
one-digit one (`%d`, `%m`, `%H`, `%M`, `%S`), with full backtracking into the
continuation. -/
def parse21 (ok2 ok1 : Nat → Bool) (k : Nat → List Char → Option DTGroups)
    (l : List Char) : Option DTGroups :=
  (parse2 ok2 k l).orElse (fun _ => parse1 ok1 k l)

/-- A literal character of the format string. -/
def litCh (c : Char) (k : List Char → Option DTGroups) : List Char → Option DTGroups
  | c' :: rest => if c' = c then k rest else none
  | [] => none

/-- `strptime` turns whitespace in the format into `\s+`. -/
def wsPlus (k : List Char → Option DTGroups) : List Char → Option DTGroups
  | c :: rest => if pyIsSpace c then ((k rest).orElse (fun _ => wsPlus k rest)) else none
  | [] => none

/-- `%Y`: exactly four digits. -/
def parse4 (k : Nat → List Char → Option DTGroups) : List Char → Option DTGroups
  | a :: b :: c :: d :: rest =>
    if a.isDigit && b.isDigit && c.isDigit && d.isDigit then
      k (digitVal a * 1000 + digitVal b * 100 + digitVal c * 10 + digitVal d) rest
    else none
  | _ => none

def dayOk2 (n : Nat) : Bool := decide (1 ≤ n) && decide (n ≤ 31)
def dayOk1 (n : Nat) : Bool := decide (1 ≤ n)
def monOk2 (n : Nat) : Bool := decide (1 ≤ n) && decide (n ≤ 12)
def hourOk2 (n : Nat) : Bool := decide (n ≤ 23)
def minSecOk2 (n : Nat) : Bool := decide (n ≤ 59)
def anyDigit (_ : Nat) : Bool := true

/-- `strptime` demands that the regex consume the whole string. -/
def atEnd (v : DTGroups) : List Char → Option DTGroups
  | [] => some v
  | _ :: _ => none

/-- `%d/%m/%Y`, the common head of every format in the source's list. -/
def parseDMY (k : Nat → Nat → Nat → List Char → Option DTGroups) :
    List Char → Option DTGroups :=
  parse21 dayOk2 dayOk1 (fun dy =>
    litCh '/' (parse21 monOk2 monOk1 (fun mo =>
      litCh '/' (parse4 (fun yr => k dy mo yr)))))
where monOk1 (n : Nat) : Bool := decide (1 ≤ n)

/-- The three distinct formats appearing in the source's tuple. -/
inductive Fmt
  | dmyHMS
  | dmyHM
  | dmy
deriving DecidableEq, Repr

/-- The regex-matching phase of `strptime` for each format. -/
def regexFmt : Fmt → List Char → Option DTGroups
  | Fmt.dmyHMS => parseDMY (fun dy mo yr =>
      wsPlus (parse21 hourOk2 anyDigit (fun hh =>
        litCh ':' (parse21 minSecOk2 anyDigit (fun mi =>
          litCh ':' (parse21 minSecOk2 anyDigit (fun ss =>
            atEnd (dy, mo, yr, hh, mi, ss))))))))
  | Fmt.dmyHM => parseDMY (fun dy mo yr =>
      wsPlus (parse21 hourOk2 anyDigit (fun hh =>
        litCh ':' (parse21 minSecOk2 anyDigit (fun mi =>
          atEnd (dy, mo, yr, hh, mi, 0))))))
  | Fmt.dmy => parseDMY (fun dy mo yr => atEnd (dy, mo, yr, 0, 0, 0))

def isLeap (y : Nat) : Bool := y % 4 == 0 && (y % 100 != 0 || y % 400 == 0)

def daysInMonth (y m : Nat) : Nat :=
  if m = 2 then (if isLeap y then 29 else 28)
  else if m = 4 ∨ m = 6 ∨ m = 9 ∨ m = 11 then 30
  else 31

/-- The `datetime(...)` construction after a successful regex match: valid only
for year ≥ 1 (`datetime.MINYEAR`) and a day that exists in the month. -/
def mkDT : DTGroups → Option PyDateTime
  | (dy, mo, yr, hh, mi, ss) =>
    if 1 ≤ yr ∧ dy ≤ daysInMonth yr mo then some ⟨yr, mo, dy, hh, mi, ss⟩ else none

/-- The successful outcomes of `datetime.strptime(s, fmt)`. -/
def strptimeOpt (f : Fmt) (s : List Char) : Option PyDateTime :=
  match regexFmt f s with
  | some g => mkDT g
  | none => none

/-- `datetime.strptime` itself: raises `ValueError` when the format does not
match or the date is invalid. -/
def strptimeE (f : Fmt) (s : List Char) : Except String PyDateTime :=
  match strptimeOpt f s with
  | some d => Except.ok d
  | none => Except.error "ValueError"

/-- The format tuple from the source, duplicates included. -/
def pyFormats : List Fmt := [Fmt.dmyHMS, Fmt.dmyHM, Fmt.dmyHMS, Fmt.dmy, Fmt.dmyHMS]

/-- The inner `for fmt in (...)`: try each format, catching `ValueError` and
continuing; `none` when every format raises. -/
def fmtLoop : List Fmt → List Char → Option PyDateTime
  | [], _ => none
  | f :: fs, s =>
    match strptimeE f s with
    | Except.ok d => some d
    | Except.error _ => fmtLoop fs s

/-- The candidate list of `try_parse_timestamp`: the raw timestamp field if
non-empty, then the date field concatenated with the optional time field. -/
def pyCandidates (ts date time : String) : List String :=
  (if ts ≠ "" then [ts] else [])
    ++ (if date ≠ "" then [date ++ (if time ≠ "" then " " ++ time else "")] else [])

/-- The outer `for s in candidates`: strip, skip empties, return the first
candidate some format parses. -/
def candLoop : List String → Option PyDateTime
  | [] => none
  | c :: cs =>
    let t := pyStrip c
    if t = "" then candLoop cs
    else
      match fmtLoop pyFormats t.data with
      | some d => some d
      | none => candLoop cs

/-- `try_parse_timestamp` from the source. -/
def try_parse_timestamp (ts date time : String) : Option PyDateTime :=
  candLoop (pyCandidates ts date time)

/-! ## The record and `validate_record` -/

/-- The flat record built by `process` and consumed by `validate_record`; every
text field defaults to the empty string, `ts_parsed` is the optional parsed
timestamp. -/
structure IncRecord where
  timestamp_raw : String
  date : String
  time : String
  email : String
  informant : String
  ubicacio : String
  tipus_equip : String
  model : String
  codi : String
  desc : String
  prioritat : String
  funciona : String
  ts_parsed : Option PyDateTime
deriving DecidableEq

/-- `email_val = (r.get("email") or "").strip()`. -/
def email_val (r : IncRecord) : String := pyStrip r.email

/-- The `fields_to_check` dict, in its insertion order. -/
def fields_to_check (r : IncRecord) : List (String × String) :=
  [("informant", pyStrip r.informant), ("ubicacio", pyStrip r.ubicacio),
   ("desc", pyStrip r.desc)]

/-- `all_vals`: the non-empty values among email, the three stripped text
fields, and the (unstripped) equipment type. -/
def all_vals (r : IncRecord) : List String :=
  ([email_val r, pyStrip r.informant, pyStrip r.ubicacio, pyStrip r.desc,
    r.tipus_equip]).filter (fun v => v ≠ "")

/-- The displayed value in the repeated-value reason: truncated to 37
characters plus `"..."` when longer than 40. -/
def sampleVal (v : String) : String :=
  if v.length ≤ 40 then v else v.take 37 ++ "..."

/-- The reason string of the repeated-value rule. -/
def rep_reason (v : String) (cnt : Nat) : String :=
  "valor repetido en campos (" ++ sampleVal v ++ ") x" ++ toString cnt

/-- Bounded-fuel computation of the distinct values of a list in first
occurrence order (the fuel, at least the list length, is always sufficient
because filtering only shortens the list). -/
def firstOccAux : Nat → List String → List String
  | _, [] => []
  | 0, _ :: _ => []
  | n + 1, x :: xs => x :: firstOccAux n (xs.filter (fun y => y ≠ x))

/-- The distinct values of a list in first-occurrence order. -/
def firstOccurrences (l : List String) : List String := firstOccAux l.length l

/-- `Counter(l).items()`: the distinct values in insertion order, each with its
multiplicity. -/
def counter_items (l : List String) : List (String × Nat) :=
  (firstOccurrences l).map (fun v => (v, l.count v))

/-- Rules 1 of the validator: the presence checks, in source order. -/
def presence_reasons (r : IncRecord) : List String :=
  (if r.informant = "" ∨ pyStrip r.informant = "" then ["sin informant"] else [])
  ++ (if r.ubicacio = "" ∨ pyStrip r.ubicacio = "" then ["sin ubicació"] else [])
  ++ (if r.desc = "" ∨ pyStrip r.desc = "" then ["sin descripció"] else [])
  ++ (if r.ts_parsed = none then ["timestamp no parseado"] else [])

/-- Rule 2: email-shaped free-text fields, in `fields_to_check` order. -/
def email_shape_reasons (r : IncRecord) : List String :=
  (if pyStrip r.informant ≠ "" ∧ looks_like_email (pyStrip r.informant) = true then
    ["informant parece un email"] else [])
  ++ (if pyStrip r.ubicacio ≠ "" ∧ looks_like_email (pyStrip r.ubicacio) = true then
    ["ubicacio parece un email"] else [])
  ++ (if pyStrip r.desc ≠ "" ∧ looks_like_email (pyStrip r.desc) = true then
    ["desc parece un email"] else [])

/-- Rule 3: gibberish fields, in `fields_to_check` order. -/
def gibberish_reasons (r : IncRecord) : List String :=
  (if pyStrip r.informant ≠ "" ∧ is_gibberish (pyStrip r.informant) = true then
    ["informant gibberish"] else [])
  ++ (if pyStrip r.ubicacio ≠ "" ∧ is_gibberish (pyStrip r.ubicacio) = true then
    ["ubicacio gibberish"] else [])
  ++ (if pyStrip r.desc ≠ "" ∧ is_gibberish (pyStrip r.desc) = true then
    ["desc gibberish"] else [])

/-- Rule 4: iterate over `Counter(all_vals).items()`, appending one reason for
the first value with multiplicity ≥ 3 and breaking. -/
def repeated_value_reasons (r : IncRecord) : List String :=
  ((counter_items (all_vals r)).findSome?
    (fun p => if 3 ≤ p.2 then some (rep_reason p.1 p.2) else none)).toList

/-- Rule 5: a non-empty email equal to 3 or more of the collected values. -/
def email_everywhere_reasons (r : IncRecord) : List String :=
  if email_val r ≠ "" then
    (if 3 ≤ (all_vals r).countP (fun v => v == email_val r) then
      ["email repetido en varios campos"] else [])
  else []

/-- Rule 6: a non-empty description shorter than 10 characters that is
gibberish. -/
def short_desc_reasons (r : IncRecord) : List String :=
  if pyStrip r.desc ≠ "" ∧ (pyStrip r.desc).length < 10 ∧
      is_gibberish (pyStrip r.desc) = true then
    ["descripción demasiado corta y no significativa"]
  else []

/-- `validate_record` from the source, with the same sequential construction of
the `reasons` list. -/
def validate_record (r : IncRecord) : Bool × List String :=
  let reasons : List String := []
  let reasons := if r.informant = "" ∨ pyStrip r.informant = "" then
    reasons ++ ["sin informant"] else reasons
  let reasons := if r.ubicacio = "" ∨ pyStrip r.ubicacio = "" then
    reasons ++ ["sin ubicació"] else reasons
  let reasons := if r.desc = "" ∨ pyStrip r.desc = "" then
    reasons ++ ["sin descripció"] else reasons
  let reasons := if r.ts_parsed = none then
    reasons ++ ["timestamp no parseado"] else reasons
  let reasons := (fields_to_check r).foldl
    (fun acc p => if p.2 ≠ "" ∧ looks_like_email p.2 = true then
      acc ++ [p.1 ++ " parece un email"] else acc) reasons
  let reasons := (fields_to_check r).foldl
    (fun acc p => if p.2 ≠ "" ∧ is_gibberish p.2 = true then
      acc ++ [p.1 ++ " gibberish"] else acc) reasons
  let reasons := reasons ++ ((counter_items (all_vals r)).findSome?
    (fun p => if 3 ≤ p.2 then some (rep_reason p.1 p.2) else none)).toList
  let reasons := if email_val r ≠ "" then
    (if 3 ≤ (all_vals r).countP (fun v => v == email_val r) then
      reasons ++ ["email repetido en varios campos"] else reasons)
  else reasons
  let reasons := if pyStrip r.desc ≠ "" ∧ (pyStrip r.desc).length < 10 ∧
      is_gibberish (pyStrip r.desc) = true then
    reasons ++ ["descripción demasiado corta y no significativa"] else reasons
  (reasons.length == 0, reasons)

/-- The full reasons list, rule segment by rule segment, in the source's
evaluation order. -/
def allReasons (r : IncRecord) : List String :=
  presence_reasons r ++ email_shape_reasons r ++ gibberish_reasons r
    ++ repeated_value_reasons r ++ email_everywhere_reasons r ++ short_desc_reasons r

/-! ## Exception-aware versions

These mirror the same code but model every operation that can raise in
Python — the two divisions and `strptime` — with `Except`; the theorems for
claim C8 show they always return `Except.ok`. -/

/-- Python division: raises `ZeroDivisionError` on a zero denominator. -/
def pyDivQ (a b : ℚ) : Except String ℚ :=
  if b = 0 then Except.error "ZeroDivisionError" else Except.ok (a / b)

/-- `vowel_ratio` with its division modelled as fallible. -/
def vowel_ratioE (s : String) : Except String ℚ :=
  if s = "" then Except.ok 0
  else if ascii_letters s = [] then Except.ok 0
  else pyDivQ ((ascii_letters s).countP isPyVowel : ℚ) ((ascii_letters s).length : ℚ)

/-- `is_gibberish` with its divisions modelled as fallible. -/
def is_gibberishE (s : String) : Except String Bool :=
  if s = "" then Except.ok false
  else
    let t := pyStrip s
    if 6 ≤ t.length then
      match vowel_ratioE t with
      | Except.error e => Except.error e
      | Except.ok vr =>
        match pyDivQ (non_alnum_count t : ℚ) ((max 1 t.length : ℕ) : ℚ) with
        | Except.error e => Except.error e
        | Except.ok frac =>
          if vr < 3 / 20 ∨ 2 / 5 < frac then Except.ok true
          else if consonant_run t then Except.ok true
          else Except.ok false
    else if consonant_run t then Except.ok true
    else Except.ok false

/-- The gibberish-detection loop of `validate_record`, with `is_gibberish`
modelled as fallible (the `val and ...` short-circuit is preserved). -/
def gibFoldE : List (String × String) → List String → Except String (List String)
  | [], acc => Except.ok acc
  | p :: ps, acc =>
    if p.2 ≠ "" then
      match is_gibberishE p.2 with
      | Except.error e => Except.error e
      | Except.ok b => gibFoldE ps (if b then acc ++ [p.1 ++ " gibberish"] else acc)
    else gibFoldE ps acc

/-- The short-description rule with `is_gibberish` modelled as fallible (the
`and` short-circuit is preserved). -/
def shortDescE (d : String) (reasons : List String) : Except String (List String) :=
  if d ≠ "" ∧ d.length < 10 then
    match is_gibberishE d with
    | Except.error e => Except.error e
    | Except.ok b =>
      Except.ok (if b then
        reasons ++ ["descripción demasiado corta y no significativa"] else reasons)
  else Except.ok reasons

/-- `validate_record` with every fallible step made explicit. -/
def validate_recordE (r : IncRecord) : Except String (Bool × List String) :=
  let reasons : List String := []
  let reasons := if r.informant = "" ∨ pyStrip r.informant = "" then
    reasons ++ ["sin informant"] else reasons
  let reasons := if r.ubicacio = "" ∨ pyStrip r.ubicacio = "" then
    reasons ++ ["sin ubicació"] else reasons
  let reasons := if r.desc = "" ∨ pyStrip r.desc = "" then
    reasons ++ ["sin descripció"] else reasons
  let reasons := if r.ts_parsed = none then
    reasons ++ ["timestamp no parseado"] else reasons
  let reasons := (fields_to_check r).foldl
    (fun acc p => if p.2 ≠ "" ∧ looks_like_email p.2 = true then
      acc ++ [p.1 ++ " parece un email"] else acc) reasons
  match gibFoldE (fields_to_check r) reasons with
  | Except.error e => Except.error e
  | Except.ok reasons =>
    let reasons := reasons ++ ((counter_items (all_vals r)).findSome?
      (fun p => if 3 ≤ p.2 then some (rep_reason p.1 p.2) else none)).toList
    let reasons := if email_val r ≠ "" then
      (if 3 ≤ (all_vals r).countP (fun v => v == email_val r) then
        reasons ++ ["email repetido en varios campos"] else reasons)
    else reasons
    match shortDescE (pyStrip r.desc) reasons with
    | Except.error e => Except.error e
    | Except.ok reasons => Except.ok (reasons.length == 0, reasons)

/-- The all-empty record: every text field empty, no parsed timestamp. -/
def emptyRec : IncRecord :=
  ⟨"", "", "", "", "", "", "", "", "", "", "", "", none⟩

/-- The record of the spec's repeated-email test case: the email pasted into
informant, location, description and equipment type, with a parsed
timestamp. -/
def exC6 : IncRecord :=
  ⟨"", "", "", "a@b.com", "a@b.com", "a@b.com", "a@b.com", "", "", "a@b.com", "", "",
   some ⟨2024, 3, 15, 14, 30, 0⟩⟩

/-- Modelled from the spec for the refinement comparison of claim C4: the
spec's description of the vowel ratio, with alphabetic characters of any
script (accented letters included) counted in the denominator. -/
def vowel_ratio_specWords (s : String) : ℚ :=
  if s = "" then 0
  else if s.data.filter pyIsAlpha = [] then 0
  else ((s.data.filter pyIsAlpha).countP isPyVowel : ℚ)
    / ((s.data.filter pyIsAlpha).length : ℚ)

/-- Two successive invocations of the Validator on the same record. -/
def validateTwice (r : IncRecord) : (Bool × List String) × (Bool × List String) :=
  (validate_record r, validate_record r)

/-! ## Helper lemmas -/

lemma ite_append_right (c : Prop) [Decidable c] (l t : List String) :
    (if c then l ++ t else l) = l ++ (if c then t else []) := by
  split <;> simp

/-- The sequential construction of `reasons` in `validate_record` is the
concatenation of the six rule segments, in order. -/
lemma validate_record_eq (r : IncRecord) :
    validate_record r = ((allReasons r).length == 0, allReasons r) := by
  unfold validate_record allReasons presence_reasons email_shape_reasons
    gibberish_reasons repeated_value_reasons email_everywhere_reasons
    short_desc_reasons fields_to_check
  simp only [List.foldl_cons, List.foldl_nil]
  simp only [ite_append_right]
  simp only [List.append_assoc, List.nil_append, List.append_nil]
  rfl

lemma validate_record_snd (r : IncRecord) : (validate_record r).2 = allReasons r := by
  rw [validate_record_eq]

lemma list_beq_zero (l : List String) : (l.length == 0) = l.isEmpty := by
  cases l <;> rfl

/-- Evaluation of `vowel_ratio` when there are letters. -/
lemma vowel_ratio_eval (s : String) (v n : ℕ) (h0 : s ≠ "")
    (h1 : ascii_letters s ≠ []) (h2 : (ascii_letters s).countP isPyVowel = v)
    (h3 : (ascii_letters s).length = n) :
    vowel_ratio s = (v : ℚ) / (n : ℚ) := by
  unfold vowel_ratio
  rw [if_neg h0, if_neg h1, h2, h3]

/-- Evaluation of `vowel_ratio` when there are no letters. -/
lemma vowel_ratio_noletters (s : String) (h : ascii_letters s = []) :
    vowel_ratio s = 0 := by
  unfold vowel_ratio
  by_cases h0 : s = ""
  · rw [if_pos h0]
  · rw [if_neg h0, if_pos h]

/-- Characterisation of `is_gibberish` on a non-empty string. -/
lemma is_gibberish_char (s : String) (h0 : s ≠ "") :
    is_gibberish s =
      (if 6 ≤ (pyStrip s).length ∧ (vowel_ratio (pyStrip s) < 3 / 20 ∨
          2 / 5 < (non_alnum_count (pyStrip s) : ℚ) /
            ((max 1 (pyStrip s).length : ℕ) : ℚ)) then true
       else if consonant_run (pyStrip s) then true
       else false) := by
  unfold is_gibberish
  rw [if_neg h0]

/-- `"a@b.com"` is not gibberish: vowel ratio `2/5`, non-alphanumeric
fraction `2/7`. -/
lemma gib_abcom : is_gibberish "a@b.com" = false := by
  rw [is_gibberish_char "a@b.com" (by decide)]
  norm_num [show pyStrip "a@b.com" = "a@b.com" from by decide,
    vowel_ratio_eval "a@b.com" 2 5 (by decide) (by decide) (by decide) (by decide),
    show non_alnum_count "a@b.com" = 2 from by decide,
    show ("a@b.com" : String).length = 7 from by decide,
    show consonant_run "a@b.com" = false from by decide]

lemma gib_xyz : is_gibberish "xyz" = false := by
  rw [is_gibberish_char "xyz" (by decide)]
  norm_num [show pyStrip "xyz" = "xyz" from by decide,
    show ("xyz" : String).length = 3 from by decide,
    show consonant_run "xyz" = false from by decide]

lemma gib_xyzxyz : is_gibberish "xyzxyz" = true := by
  rw [is_gibberish_char "xyzxyz" (by decide)]
  norm_num [show pyStrip "xyzxyz" = "xyzxyz" from by decide,
    vowel_ratio_eval "xyzxyz" 0 6 (by decide) (by decide) (by decide) (by decide),
    show ("xyzxyz" : String).length = 6 from by decide]

lemma gib_bcdfg : is_gibberish "bcdfg" = true := by
  rw [is_gibberish_char "bcdfg" (by decide)]
  norm_num [show pyStrip "bcdfg" = "bcdfg" from by decide,
    show ("bcdfg" : String).length = 5 from by decide,
    show consonant_run "bcdfg" = true from by decide]

lemma gib_digits : is_gibberish "123456" = true := by
  rw [is_gibberish_char "123456" (by decide)]
  norm_num [show pyStrip "123456" = "123456" from by decide,
    vowel_ratio_noletters "123456" (by decide),
    show ("123456" : String).length = 6 from by decide]

lemma vowel_ratioE_ok (s : String) : vowel_ratioE s = Except.ok (vowel_ratio s) := by
  unfold vowel_ratioE vowel_ratio
  by_cases h0 : s = ""
  · rw [if_pos h0, if_pos h0]
  · rw [if_neg h0, if_neg h0]
    by_cases h1 : ascii_letters s = []
    · rw [if_pos h1, if_pos h1]
    · rw [if_neg h1, if_neg h1]
      have hd : ((ascii_letters s).length : ℚ) ≠ 0 := by
        have : (ascii_letters s).length ≠ 0 := by
          simpa [List.length_eq_zero] using h1
        exact_mod_cast this
      simp [pyDivQ, hd]

lemma is_gibberishE_ok (s : String) : is_gibberishE s = Except.ok (is_gibberish s) := by
  by_cases h0 : s = ""
  · simp [is_gibberishE, is_gibberish, h0]
  · unfold is_gibberishE
    rw [is_gibberish_char s h0, if_neg h0]
    show (if 6 ≤ (pyStrip s).length then _ else _) = _
    by_cases h6 : 6 ≤ (pyStrip s).length
    · rw [if_pos h6, vowel_ratioE_ok]
      have hd : ((max 1 (pyStrip s).length : ℕ) : ℚ) ≠ 0 := by
        have : (max 1 (pyStrip s).length : ℕ) ≠ 0 := by positivity
        exact_mod_cast this
      show (match pyDivQ _ _ with
        | Except.error e => Except.error e
        | Except.ok frac =>
          if vowel_ratio (pyStrip s) < 3 / 20 ∨ 2 / 5 < frac then Except.ok true
          else if consonant_run (pyStrip s) then Except.ok true
          else Except.ok false) = _
      rw [show pyDivQ (non_alnum_count (pyStrip s) : ℚ)
          ((max 1 (pyStrip s).length : ℕ) : ℚ) =
          Except.ok ((non_alnum_count (pyStrip s) : ℚ) /
            ((max 1 (pyStrip s).length : ℕ) : ℚ)) from by unfold pyDivQ; rw [if_neg hd]]
      by_cases hd2 : vowel_ratio (pyStrip s) < 3 / 20 ∨
          2 / 5 < (non_alnum_count (pyStrip s) : ℚ) / ((max 1 (pyStrip s).length : ℕ) : ℚ)
      · simp only [if_pos hd2, if_pos (And.intro h6 hd2)]
      · simp only [if_neg hd2, if_neg (fun hc : _ ∧ _ => hd2 hc.2)]
        split <;> rfl
    · rw [if_neg h6, if_neg (fun hc : _ ∧ _ => h6 hc.1)]
      split <;> rfl

lemma gibFoldE_ok : ∀ (ps : List (String × String)) (acc : List String),
    gibFoldE ps acc = Except.ok (ps.foldl
      (fun acc p => if p.2 ≠ "" ∧ is_gibberish p.2 = true then
        acc ++ [p.1 ++ " gibberish"] else acc) acc)
  | [], acc => rfl
  | p :: ps, acc => by
    by_cases hp : p.2 = ""
    · have h1 : gibFoldE (p :: ps) acc = gibFoldE ps acc := by
        simp [gibFoldE, hp]
      have h2 : (if p.2 ≠ "" ∧ is_gibberish p.2 = true then
          acc ++ [p.1 ++ " gibberish"] else acc) = acc := by
        simp [hp]
      rw [h1, List.foldl_cons, h2]
      exact gibFoldE_ok ps acc
    · cases hg : is_gibberish p.2
      · have h1 : gibFoldE (p :: ps) acc = gibFoldE ps acc := by
          simp [gibFoldE, hp, is_gibberishE_ok, hg]
        have h2 : (if p.2 ≠ "" ∧ is_gibberish p.2 = true then
            acc ++ [p.1 ++ " gibberish"] else acc) = acc := by
          simp [hg]
        rw [h1, List.foldl_cons, h2]
        exact gibFoldE_ok ps acc
      · have h1 : gibFoldE (p :: ps) acc = gibFoldE ps (acc ++ [p.1 ++ " gibberish"]) := by
          simp [gibFoldE, hp, is_gibberishE_ok, hg]
        have h2 : (if p.2 ≠ "" ∧ is_gibberish p.2 = true then
            acc ++ [p.1 ++ " gibberish"] else acc) = acc ++ [p.1 ++ " gibberish"] := by
          simp [hp, hg]
        rw [h1, List.foldl_cons, h2]
        exact gibFoldE_ok ps (acc ++ [p.1 ++ " gibberish"])

lemma shortDescE_ok (d : String) (reasons : List String) :
    shortDescE d reasons = Except.ok
      (if d ≠ "" ∧ d.length < 10 ∧ is_gibberish d = true then
        reasons ++ ["descripción demasiado corta y no significativa"] else reasons) := by
  unfold shortDescE
  by_cases h : d ≠ "" ∧ d.length < 10
  · rw [if_pos h, is_gibberishE_ok]
    cases hg : is_gibberish d
    · simp [hg]
    · simp [hg, h.1, h.2]
  · rw [if_neg h]
    have h2 : ¬(d ≠ "" ∧ d.length < 10 ∧ is_gibberish d = true) := by
      intro hc
      exact h ⟨hc.1, hc.2.1⟩
    rw [if_neg h2]

lemma validate_recordE_ok (r : IncRecord) :
    validate_recordE r = Except.ok (validate_record r) := by
  unfold validate_recordE validate_record
  simp only [gibFoldE_ok, shortDescE_ok]

/-- Searching with an `if`-guarded `some` is finding the first satisfying
element and mapping. -/
lemma findSome?_ite {α β : Type} (p : α → Prop) [DecidablePred p] (g : α → β) :
    ∀ l : List α,
      (l.findSome? (fun a => if p a then some (g a) else none))
        = (l.find? (fun a => decide (p a))).map g
  | [] => rfl
  | a :: l => by
    by_cases h : p a
    · simp [List.findSome?_cons, List.find?_cons, h]
    · have h1 : ((a :: l).findSome? (fun a => if p a then some (g a) else none))
          = l.findSome? (fun a => if p a then some (g a) else none) := by
        simp [List.findSome?_cons, h]
      have h2 : ((a :: l).find? (fun a => decide (p a)))
          = l.find? (fun a => decide (p a)) := by
        simp [List.find?_cons, h]
      rw [h1, h2]
      exact findSome?_ite p g l

/-- Filtering out elements equal to a value the predicate rejects does not
change the result of `find?`. -/
lemma find?_filter_ne (q : String → Bool) (x : String) (hx : q x = false) :
    ∀ xs : List String, ((xs.filter (fun y => y ≠ x)).find? q) = xs.find? q
  | [] => rfl
  | y :: ys => by
    by_cases hyx : y = x
    · subst hyx
      have hfil : ((y :: ys).filter (fun z => z ≠ y)) = ys.filter (fun z => z ≠ y) := by
        simp
      have hfind : ((y :: ys).find? q) = ys.find? q := by
        simp [List.find?_cons, hx]
      rw [hfil, hfind]
      exact find?_filter_ne q y hx ys
    · have hfil : ((y :: ys).filter (fun z => z ≠ x))
          = y :: ys.filter (fun z => z ≠ x) := by
        simp [hyx]
      rw [hfil]
      cases hq : q y
      · have e1 : ((y :: ys.filter (fun z => z ≠ x)).find? q)
            = (ys.filter (fun z => z ≠ x)).find? q := by
          simp [List.find?_cons, hq]
        have e2 : ((y :: ys).find? q) = ys.find? q := by
          simp [List.find?_cons, hq]
        rw [e1, e2]
        exact find?_filter_ne q x hx ys
      · have e1 : ((y :: ys.filter (fun z => z ≠ x)).find? q) = some y := by
          simp [List.find?_cons, hq]
        have e2 : ((y :: ys).find? q) = some y := by
          simp [List.find?_cons, hq]
        rw [e1, e2]

/-- `find?` over the first-occurrence list agrees with `find?` over the
original list. -/
lemma firstOccAux_find? (q : String → Bool) :
    ∀ (n : Nat) (l : List String), l.length ≤ n →
      ((firstOccAux n l).find? q) = l.find? q := by
  intro n
  induction n with
  | zero =>
    intro l h
    cases l with
    | nil => rfl
    | cons x xs => simp at h
  | succ n ih =>
    intro l h
    cases l with
    | nil => rfl
    | cons x xs =>
      have h2 : xs.length ≤ n := by
        simp only [List.length_cons] at h
        omega
      have hlen : (xs.filter (fun y => y ≠ x)).length ≤ n :=
        le_trans (List.length_filter_le _ _) h2
      show ((x :: firstOccAux n (xs.filter (fun y => y ≠ x))).find? q) = (x :: xs).find? q
      cases hq : q x
      · have e1 : ((x :: firstOccAux n (xs.filter (fun y => y ≠ x))).find? q)
            = (firstOccAux n (xs.filter (fun y => y ≠ x))).find? q := by
          simp [List.find?_cons, hq]
        have e2 : ((x :: xs).find? q) = xs.find? q := by
          simp [List.find?_cons, hq]
        rw [e1, e2, ih _ hlen, find?_filter_ne q x hq xs]
      · have e1 : ((x :: firstOccAux n (xs.filter (fun y => y ≠ x))).find? q) = some x := by
          simp [List.find?_cons, hq]
        have e2 : ((x :: xs).find? q) = some x := by
          simp [List.find?_cons, hq]
        rw [e1, e2]

lemma firstOccurrences_find? (q : String → Bool) (l : List String) :
    ((firstOccurrences l).find? q) = l.find? q :=
  firstOccAux_find? q l.length l le_rfl

lemma repeated_value_reasons_eq (r : IncRecord) :
    repeated_value_reasons r =
      (((all_vals r).find? (fun v => 3 ≤ (all_vals r).count v)).map
        (fun v => rep_reason v ((all_vals r).count v))).toList := by
  unfold repeated_value_reasons counter_items
  rw [List.findSome?_map]
  rw [show ((fun p : String × Nat => if 3 ≤ p.2 then some (rep_reason p.1 p.2) else none)
      ∘ (fun v => (v, (all_vals r).count v)))
      = fun v => if 3 ≤ (all_vals r).count v then
          some (rep_reason v ((all_vals r).count v)) else none from rfl]
  rw [findSome?_ite (fun v => 3 ≤ (all_vals r).count v)
    (fun v => rep_reason v ((all_vals r).count v)), firstOccurrences_find?]

lemma ite_sublist (c : Prop) [Decidable c] (l : List String) :
    List.Sublist (if c then l else []) l := by
  split
  · exact List.Sublist.refl l
  · exact List.nil_sublist l

/-- Every reason emitted by the repeated-value rule starts with its fixed
template text. -/
lemma repeated_mem_prefix (r : IncRecord) (x : String)
    (hx : x ∈ repeated_value_reasons r) :
    ∃ t, x = "valor repetido en campos (" ++ t := by
  unfold repeated_value_reasons at hx
  cases ho : (counter_items (all_vals r)).findSome?
      (fun p => if 3 ≤ p.2 then some (rep_reason p.1 p.2) else none) with
  | none =>
    rw [ho] at hx
    simp at hx
  | some y =>
    rw [ho] at hx
    simp only [Option.toList_some, List.mem_singleton] at hx
    subst hx
    obtain ⟨p, hp, hpy⟩ := List.exists_of_findSome?_eq_some ho
    by_cases h3 : 3 ≤ p.2
    · rw [if_pos h3] at hpy
      injection hpy with h
      subst h
      refine ⟨sampleVal p.1 ++ (") x" ++ toString p.2), ?_⟩
      unfold rep_reason
      rw [String.append_assoc, String.append_assoc]
    · rw [if_neg h3] at hpy
      cases hpy

lemma head_ne_valor (s t : String) (h : s.data.head? ≠ some 'v') :
    s ≠ "valor repetido en campos (" ++ t := by
  intro he
  apply h
  rw [he]
  rfl

lemma option_toList_nodup (o : Option String) : o.toList.Nodup := by
  cases o <;> simp

/-- The reasons list never contains the same string twice. -/
lemma allReasons_nodup (r : IncRecord) : (allReasons r).Nodup := by
  have hP : List.Sublist (presence_reasons r) ["sin informant", "sin ubicació",
      "sin descripció", "timestamp no parseado"] := by
    unfold presence_reasons
    exact List.Sublist.append (List.Sublist.append
      (List.Sublist.append (ite_sublist _ _) (ite_sublist _ _))
      (ite_sublist _ _)) (ite_sublist _ _)
  have hE : List.Sublist (email_shape_reasons r) ["informant parece un email",
      "ubicacio parece un email", "desc parece un email"] := by
    unfold email_shape_reasons
    exact List.Sublist.append (List.Sublist.append (ite_sublist _ _)
      (ite_sublist _ _)) (ite_sublist _ _)
  have hG : List.Sublist (gibberish_reasons r) ["informant gibberish",
      "ubicacio gibberish", "desc gibberish"] := by
    unfold gibberish_reasons
    exact List.Sublist.append (List.Sublist.append (ite_sublist _ _)
      (ite_sublist _ _)) (ite_sublist _ _)
  have hEm : List.Sublist (email_everywhere_reasons r)
      ["email repetido en varios campos"] := by
    unfold email_everywhere_reasons
    split
    · exact ite_sublist _ _
    · exact List.nil_sublist _
  have hSd : List.Sublist (short_desc_reasons r)
      ["descripción demasiado corta y no significativa"] := by
    unfold short_desc_reasons
    exact ite_sublist _ _
  have hA : List.Sublist
      (presence_reasons r ++ email_shape_reasons r ++ gibberish_reasons r)
      ["sin informant", "sin ubicació", "sin descripció", "timestamp no parseado",
       "informant parece un email", "ubicacio parece un email", "desc parece un email",
       "informant gibberish", "ubicacio gibberish", "desc gibberish"] :=
    List.Sublist.append (List.Sublist.append hP hE) hG
  have hB : List.Sublist (email_everywhere_reasons r ++ short_desc_reasons r)
      ["email repetido en varios campos",
       "descripción demasiado corta y no significativa"] :=
    List.Sublist.append hEm hSd
  have key : allReasons r =
      (presence_reasons r ++ email_shape_reasons r ++ gibberish_reasons r)
        ++ (repeated_value_reasons r
          ++ (email_everywhere_reasons r ++ short_desc_reasons r)) := by
    unfold allReasons
    simp [List.append_assoc]
  rw [key]
  refine List.nodup_append.mpr ⟨List.Nodup.sublist hA (by decide),
    List.nodup_append.mpr ⟨option_toList_nodup _, List.Nodup.sublist hB (by decide),
      ?_⟩, ?_⟩
  · -- repeated-value reasons are disjoint from the email-everywhere and
    -- short-description reasons
    intro x hxR hxB
    obtain ⟨t, rfl⟩ := repeated_mem_prefix r x hxR
    have hm := hB.subset hxB
    simp only [List.mem_cons, List.mem_singleton, List.not_mem_nil, or_false] at hm
    rcases hm with h | h
    · exact head_ne_valor _ t (by decide) h.symm
    · exact head_ne_valor _ t (by decide) h.symm
  · -- the first three segments are disjoint from the last three
    intro x hxA hxRest
    have hmA := hA.subset hxA
    rcases List.mem_append.mp hxRest with hxR | hxB
    · obtain ⟨t, rfl⟩ := repeated_mem_prefix r x hxR
      simp only [List.mem_cons, List.not_mem_nil, or_false] at hmA
      rcases hmA with h | h | h | h | h | h | h | h | h | h <;>
        exact head_ne_valor _ t (by decide) h.symm
    · have hmB := hB.subset hxB
      simp only [List.mem_cons, List.not_mem_nil, or_false] at hmA hmB
      rcases hmA with rfl | rfl | rfl | rfl | rfl | rfl | rfl | rfl | rfl | rfl <;>
        rcases hmB with h | h <;> exact absurd h (by decide)

lemma consonantChar_isAlpha (c : Char) (h : consonantChar c = true) :
    pyIsAlpha c = true := by
  unfold consonantChar at h
  rw [show ("bcdfghjklmnpqrstvwxyz" : String).data
      = ['b', 'c', 'd', 'f', 'g', 'h', 'j', 'k', 'l', 'm', 'n', 'p', 'q', 'r',
         's', 't', 'v', 'w', 'x', 'y', 'z'] from rfl,
    show ("BCDFGHJKLMNPQRSTVWXYZ" : String).data
      = ['B', 'C', 'D', 'F', 'G', 'H', 'J', 'K', 'L', 'M', 'N', 'P', 'Q', 'R',
         'S', 'T', 'V', 'W', 'X', 'Y', 'Z'] from rfl] at h
  simp only [Bool.or_eq_true, decide_eq_true_eq] at h
  rcases h with h | h <;> fin_cases h <;> decide

lemma no_alpha_consonant_run (s : String) (h : ∀ c ∈ s.data, pyIsAlpha c = false) :
    consonant_run s = false := by
  unfold consonant_run
  cases hall : s.data.all consonantChar
  · simp
  · cases hd : s.data with
    | nil =>
      have hlen : s.length = 0 := by simp [String.length, hd]
      rw [hlen]
      simp
    | cons c cs =>
      have hc : consonantChar c = true :=
        List.all_eq_true.mp hall c (by rw [hd]; exact List.mem_cons_self c cs)
      have h1 := consonantChar_isAlpha c hc
      have h2 := h c (by rw [hd]; exact List.mem_cons_self c cs)
      rw [h2] at h1
      exact absurd h1 (by decide)

lemma ascii_letters_eq_nil (s : String) (h : ∀ c ∈ s.data, pyIsAlpha c = false) :
    ascii_letters s = [] := by
  unfold ascii_letters
  rw [List.filter_eq_nil_iff]
  intro c hc
  have h1 := h c hc
  unfold pyIsAlpha at h1
  simp only [Bool.or_eq_false_iff] at h1
  simp [h1.1]

lemma gib_reasons_exC6 : gibberish_reasons exC6 = [] := by
  unfold gibberish_reasons
  simp only [show pyStrip exC6.informant = "a@b.com" from by decide,
    show pyStrip exC6.ubicacio = "a@b.com" from by decide,
    show pyStrip exC6.desc = "a@b.com" from by decide, gib_abcom]
  simp

lemma short_exC6 : short_desc_reasons exC6 = [] := by
  unfold short_desc_reasons
  simp only [show pyStrip exC6.desc = "a@b.com" from by decide, gib_abcom]
  simp

lemma validate_exC6 : validate_record exC6 = (false,
    ["informant parece un email", "ubicacio parece un email", "desc parece un email",
     "valor repetido en campos (a@b.com) x5", "email repetido en varios campos"]) := by
  rw [validate_record_eq]
  have hall : allReasons exC6 =
      ["informant parece un email", "ubicacio parece un email", "desc parece un email",
       "valor repetido en campos (a@b.com) x5", "email repetido en varios campos"] := by
    unfold allReasons
    rw [show presence_reasons exC6 = [] from by decide,
      show email_shape_reasons exC6 = ["informant parece un email",
        "ubicacio parece un email", "desc parece un email"] from by decide,
      gib_reasons_exC6,
      show repeated_value_reasons exC6
        = ["valor repetido en campos (a@b.com) x5"] from by decide,
      show email_everywhere_reasons exC6
        = ["email repetido en varios campos"] from by decide,
      short_exC6]
    rfl
  rw [hall]
  rfl

/-! ## The claims -/

/-- C1: for every NormalizedRecord the verdict satisfies
`isValid = (reasons is empty)` — a record with zero triggered rules is valid
with an empty reasons list, any triggered rule makes it invalid, all triggered
reasons are retained, and the reasons appear in the fixed rule-evaluation
order: presence checks, then email-shape, then gibberish, then repeated-value,
then email-everywhere, then short-noise description. -/
theorem C1_verdict_structure : ∀ r : IncRecord,
    ((validate_record r).1 = (validate_record r).2.isEmpty) ∧
    ((validate_record r).1 = true ↔ (validate_record r).2 = []) ∧
    ((validate_record r).1 = false ↔ (validate_record r).2 ≠ []) ∧
    (validate_record r).2 = presence_reasons r ++ email_shape_reasons r
      ++ gibberish_reasons r ++ repeated_value_reasons r
      ++ email_everywhere_reasons r ++ short_desc_reasons r := by
  intro r
  refine ⟨?_, ?_, ?_, ?_⟩
  · rw [validate_record_eq]
    exact list_beq_zero _
  · rw [validate_record_eq]
    simp [List.length_eq_zero]
  · rw [validate_record_eq]
    simp [List.length_eq_zero]
  · rw [validate_record_snd]
    rfl

/-- C2: a record in which every text field is empty and the parsed timestamp
is absent is invalid with exactly the four presence reasons, in order, and no
email-shape, gibberish, repetition or short-description reasons. -/
theorem C2_all_empty : ∀ r : IncRecord,
    r.timestamp_raw = "" → r.date = "" → r.time = "" → r.email = "" →
    r.informant = "" → r.ubicacio = "" → r.tipus_equip = "" → r.model = "" →
    r.codi = "" → r.desc = "" → r.prioritat = "" → r.funciona = "" →
    r.ts_parsed = none →
    validate_record r = (false, ["sin informant", "sin ubicació",
      "sin descripció", "timestamp no parseado"]) := by
  intro r h1 h2 h3 h4 h5 h6 h7 h8 h9 h10 h11 h12 h13
  rcases r with ⟨f1, f2, f3, f4, f5, f6, f7, f8, f9, f10, f11, f12, f13⟩
  simp only at h1 h2 h3 h4 h5 h6 h7 h8 h9 h10 h11 h12 h13
  subst h1 h2 h3 h4 h5 h6 h7 h8 h9 h10 h11 h12 h13
  decide

/-- Witness for C2 at the concrete all-empty record. -/
theorem C2_all_empty_witness : validate_record emptyRec = (false,
    ["sin informant", "sin ubicació", "sin descripció", "timestamp no parseado"]) :=
  C2_all_empty emptyRec rfl rfl rfl rfl rfl rfl rfl rfl rfl rfl rfl rfl rfl

/-- C3 counterexample: `"123456"` is a trimmed string of length ≥ 6 with no
alphabetic characters, yet `is_gibberish` flags it — the length-based branch
fires because its vowel ratio 0 is below 0.15, contradicting the claim that
such a string is not classified as gibberish. -/
theorem C3_counterexample : pyStrip "123456" = "123456" ∧
    ("123456" : String).data.all (fun c => !pyIsAlpha c) = true ∧
    6 ≤ ("123456" : String).length ∧
    vowel_ratio "123456" = 0 ∧
    is_gibberish "123456" = true :=
  ⟨by decide, by decide, by decide,
   vowel_ratio_noletters "123456" (by decide), gib_digits⟩

/-- C3 amended: a trimmed string with no alphabetic characters has vowel
ratio 0, and therefore the length-based branch DOES flag it whenever its
length is at least 6 (0 < 0.15); only such strings shorter than 6 characters
escape `is_gibberish` (the consonant-run branch needs letters). -/
theorem C3_no_alpha_amended : ∀ s : String, pyStrip s = s →
    (∀ c ∈ s.data, pyIsAlpha c = false) →
    vowel_ratio s = 0 ∧ (6 ≤ s.length → is_gibberish s = true) ∧
    (s.length < 6 → is_gibberish s = false) := by
  intro s hstrip halpha
  have hletters : ascii_letters s = [] := ascii_letters_eq_nil s halpha
  have hvr : vowel_ratio s = 0 := vowel_ratio_noletters s hletters
  refine ⟨hvr, ?_, ?_⟩
  · intro h6
    have h0 : s ≠ "" := by
      intro he
      subst he
      exact absurd h6 (by decide)
    rw [is_gibberish_char s h0, hstrip]
    rw [if_pos ⟨h6, Or.inl (by rw [hvr]; norm_num)⟩]
  · intro hlt
    by_cases h0 : s = ""
    · subst h0
      rfl
    · rw [is_gibberish_char s h0, hstrip]
      rw [if_neg (fun hc : _ ∧ _ => absurd hc.1 (by omega)),
        no_alpha_consonant_run s halpha]
      simp

/-- Witness for the amended C3 at the digits-only inputs `"123456"` and
`"123"`. -/
theorem C3_no_alpha_witness :
    is_gibberish "123456" = true ∧ is_gibberish "123" = false :=
  ⟨(C3_no_alpha_amended "123456" (by decide) (by decide)).2.1 (by decide),
   (C3_no_alpha_amended "123" (by decide) (by decide)).2.2 (by decide)⟩

/-- C4 counterexample: on `"áb"` the code's vowel ratio is `0` (the regex
`[A-Za-z]` collects only the ASCII letter `b`), while the spec's
any-script-alphabetic denominator would give `1/2` — the claim that the two
agree on every string is false. -/
theorem C4_counterexample :
    vowel_ratio "áb" = 0 ∧ vowel_ratio_specWords "áb" = 1 / 2 ∧
    vowel_ratio "áb" ≠ vowel_ratio_specWords "áb" := by
  have h1 : vowel_ratio "áb" = 0 := by
    rw [vowel_ratio_eval "áb" 0 1 (by decide) (by decide) (by decide) (by decide)]
    norm_num
  have h2 : vowel_ratio_specWords "áb" = 1 / 2 := by
    unfold vowel_ratio_specWords
    rw [if_neg (by decide), if_neg (by decide),
      show (("áb" : String).data.filter pyIsAlpha).countP isPyVowel = 1 from by decide,
      show (("áb" : String).data.filter pyIsAlpha).length = 2 from by decide]
    norm_num
  refine ⟨h1, h2, ?_⟩
  rw [h1, h2]
  norm_num

/-- C4 amended: the vowel ratio equals the count of collected letters whose
lowercase lies in the vowel set divided by the count of ASCII alphabetic
characters `[A-Za-z]` (with ratio 0 when there are none); non-ASCII letters,
accented vowels included, are counted in neither numerator nor denominator —
so an accented-vowels-only string has ratio 0. -/
theorem C4_ascii_denominator :
    (∀ s : String, vowel_ratio s = ((ascii_letters s).countP isPyVowel : ℚ)
      / ((max 1 (ascii_letters s).length : ℕ) : ℚ)) ∧
    vowel_ratio "áéíóú" = 0 ∧
    vowel_ratio "Paella" = 1 / 2 := by
  refine ⟨?_, ?_, ?_⟩
  · intro s
    by_cases h0 : s = ""
    · subst h0
      rw [show ascii_letters "" = [] from rfl]
      simp [vowel_ratio]
    · by_cases h1 : ascii_letters s = []
      · rw [vowel_ratio_noletters s h1, h1]
        simp
      · rw [vowel_ratio_eval s _ _ h0 h1 rfl rfl]
        have hmax : max 1 (ascii_letters s).length = (ascii_letters s).length := by
          have : 0 < (ascii_letters s).length := List.length_pos.mpr h1
          omega
        rw [hmax]
  · exact vowel_ratio_noletters "áéíóú" (by decide)
  · rw [vowel_ratio_eval "Paella" 3 6 (by decide) (by decide) (by decide) (by decide)]
    norm_num

/-- C5: `isGibberish "xyz"` is false (length 3 < 6 and only 3 consonants),
`isGibberish "xyzxyz"` is true (length 6, vowel ratio 0), and
`isGibberish "bcdfg"` is true (a 5-letter all-consonant run, caught by the
consonant-run branch even though the length branch does not apply) — the two
branches fire independently. -/
theorem C5_gibberish_examples :
    is_gibberish "xyz" = false ∧ is_gibberish "xyzxyz" = true ∧
    is_gibberish "bcdfg" = true ∧
    ("xyz" : String).length < 6 ∧ 6 ≤ ("xyzxyz" : String).length ∧
    ("bcdfg" : String).length < 6 ∧ consonant_run "bcdfg" = true ∧
    consonant_run "xyz" = false :=
  ⟨gib_xyz, gib_xyzxyz, gib_bcdfg, by decide, by decide, by decide,
   by decide, by decide⟩

/-- C6: the repeated-value rule appends at most one reason, built from the
first value of the collected list whose multiplicity is at least 3 (the
displayed value truncated to 37 characters plus an ellipsis when longer than
40); additively, a non-empty email equal to 3 or more of the collected values
yields the separate email-everywhere reason; on the spec's all-email record
the verdict is invalid and contains both reasons. -/
theorem C6_repeated_and_email :
    (∀ r : IncRecord, (repeated_value_reasons r).length ≤ 1) ∧
    (∀ r : IncRecord, repeated_value_reasons r =
      (((all_vals r).find? (fun v => 3 ≤ (all_vals r).count v)).map
        (fun v => rep_reason v ((all_vals r).count v))).toList) ∧
    (∀ v : String, 40 < v.length → sampleVal v = v.take 37 ++ "...") ∧
    (∀ v : String, v.length ≤ 40 → sampleVal v = v) ∧
    (∀ r : IncRecord, email_val r ≠ "" →
      3 ≤ (all_vals r).countP (fun v => v == email_val r) →
      "email repetido en varios campos" ∈ (validate_record r).2) ∧
    (validate_record exC6).1 = false ∧
    "valor repetido en campos (a@b.com) x5" ∈ (validate_record exC6).2 ∧
    "email repetido en varios campos" ∈ (validate_record exC6).2 := by
  refine ⟨?_, ?_, ?_, ?_, ?_, ?_, ?_, ?_⟩
  · intro r
    unfold repeated_value_reasons
    cases (counter_items (all_vals r)).findSome?
        (fun p => if 3 ≤ p.2 then some (rep_reason p.1 p.2) else none) <;> simp
  · exact repeated_value_reasons_eq
  · intro v hv
    unfold sampleVal
    rw [if_neg (by omega)]
  · intro v hv
    unfold sampleVal
    rw [if_pos hv]
  · intro r h1 h2
    have he : email_everywhere_reasons r = ["email repetido en varios campos"] := by
      unfold email_everywhere_reasons
      rw [if_pos h1, if_pos h2]
    rw [validate_record_snd]
    unfold allReasons
    simp [he]
  · rw [validate_exC6]
  · rw [validate_exC6]
    decide
  · rw [validate_exC6]
    decide

/-- Witness for C6: the truncation branch at a 46-character value, and the
email-everywhere reason on the concrete all-email record. -/
theorem C6_repeated_and_email_witness :
    sampleVal "0123456789012345678901234567890123456789012345"
      = ("0123456789012345678901234567890123456789012345" : String).take 37 ++ "..." ∧
    sampleVal "a@b.com" = "a@b.com" ∧
    "email repetido en varios campos" ∈ (validate_record exC6).2 :=
  ⟨C6_repeated_and_email.2.2.1 _ (by decide),
   C6_repeated_and_email.2.2.2.1 _ (by decide),
   C6_repeated_and_email.2.2.2.2.1 exC6 (by decide) (by decide)⟩

/-- C7: timestamp parsing is deterministic first-match-wins over the ordered
candidate list (raw timestamp first, then date plus optional time): a
candidate that parses stops the search immediately, a candidate that fails
every format (or strips to empty) passes control to the next, the first
format that matches wins within a candidate; `"15/03/2024 14:30:00"` parses
and `"2024-03-15"` matches no format and yields an absent timestamp. -/
theorem C7_first_match_wins :
    (∀ ts date time : String, try_parse_timestamp ts date time
      = candLoop (pyCandidates ts date time)) ∧
    (∀ (c : String) (cs : List String) (d : PyDateTime), pyStrip c ≠ "" →
      fmtLoop pyFormats (pyStrip c).data = some d → candLoop (c :: cs) = some d) ∧
    (∀ (c : String) (cs : List String),
      pyStrip c = "" ∨ fmtLoop pyFormats (pyStrip c).data = none →
      candLoop (c :: cs) = candLoop cs) ∧
    (∀ (f : Fmt) (fs : List Fmt) (s : List Char) (d : PyDateTime),
      strptimeE f s = Except.ok d → fmtLoop (f :: fs) s = some d) ∧
    (∀ (f : Fmt) (fs : List Fmt) (s : List Char) (e : String),
      strptimeE f s = Except.error e → fmtLoop (f :: fs) s = fmtLoop fs s) ∧
    try_parse_timestamp "15/03/2024 14:30:00" "" "" = some ⟨2024, 3, 15, 14, 30, 0⟩ ∧
    try_parse_timestamp "2024-03-15" "" "" = none := by
  refine ⟨fun _ _ _ => rfl, ?_, ?_, ?_, ?_, by decide, by decide⟩
  · intro c cs d h1 h2
    simp only [candLoop]
    rw [if_neg h1, h2]
  · intro c cs h
    rcases h with h | h
    · simp only [candLoop]
      rw [if_pos h]
    · simp only [candLoop]
      by_cases h1 : pyStrip c = ""
      · rw [if_pos h1]
      · rw [if_neg h1, h]
  · intro f fs s d h
    simp only [fmtLoop, h]
  · intro f fs s e h
    simp only [fmtLoop, h]

/-- Witness for C7: the loop lemmas applied at concrete candidates and
formats. -/
theorem C7_first_match_wins_witness :
    candLoop ["15/03/2024 14:30:00", "junk"] = some ⟨2024, 3, 15, 14, 30, 0⟩ ∧
    candLoop ["   ", "15/03/2024"] = candLoop ["15/03/2024"] ∧
    fmtLoop (Fmt.dmy :: [Fmt.dmyHMS]) "15/03/2024".data = some ⟨2024, 3, 15, 0, 0, 0⟩ ∧
    fmtLoop (Fmt.dmyHMS :: [Fmt.dmy]) "15/03/2024".data
      = fmtLoop [Fmt.dmy] "15/03/2024".data :=
  ⟨C7_first_match_wins.2.1 _ _ _ (by decide) (by decide),
   C7_first_match_wins.2.2.1 _ _ (Or.inl (by decide)),
   C7_first_match_wins.2.2.2.1 Fmt.dmy [Fmt.dmyHMS] "15/03/2024".data
     ⟨2024, 3, 15, 0, 0, 0⟩ rfl,
   C7_first_match_wins.2.2.2.2.1 Fmt.dmyHMS [Fmt.dmy] "15/03/2024".data
     "ValueError" rfl⟩

/-- C8: the Validator and the timestamp parser are total — the
exception-aware versions always return `Except.ok`: every record yields a
well-defined verdict, every raising `strptime` is caught so the next format
is tried, and an unparseable timestamp is the `none` value, never a
propagated exception. -/
theorem C8_never_raises :
    (∀ r : IncRecord, validate_recordE r = Except.ok (validate_record r)) ∧
    (∀ (f : Fmt) (fs : List Fmt) (s : List Char) (e : String),
      strptimeE f s = Except.error e → fmtLoop (f :: fs) s = fmtLoop fs s) ∧
    (∀ ts date time : String, try_parse_timestamp ts date time = none ∨
      ∃ d, try_parse_timestamp ts date time = some d) := by
  refine ⟨validate_recordE_ok, ?_, ?_⟩
  · intro f fs s e h
    simp only [fmtLoop, h]
  · intro ts date time
    cases h : try_parse_timestamp ts date time with
    | none => exact Or.inl rfl
    | some d => exact Or.inr ⟨d, rfl⟩

/-- Witness for C8: the catch clause at a concrete raising `strptime` call. -/
theorem C8_never_raises_witness :
    validate_recordE emptyRec = Except.ok (validate_record emptyRec) ∧
    fmtLoop (Fmt.dmyHMS :: [Fmt.dmy]) "2024-03-15".data
      = fmtLoop [Fmt.dmy] "2024-03-15".data :=
  ⟨C8_never_raises.1 emptyRec,
   C8_never_raises.2.1 Fmt.dmyHMS [Fmt.dmy] "2024-03-15".data "ValueError" rfl⟩

/-- C9: the Validator is a deterministic pure function — two invocations on
the same record produce identical verdicts: the same validity boolean and the
same reasons list in the same order. -/
theorem C9_deterministic : ∀ r : IncRecord,
    (validateTwice r).1 = (validateTwice r).2 ∧
    ((validateTwice r).1).1 = ((validateTwice r).2).1 ∧
    ((validateTwice r).1).2 = ((validateTwice r).2).2 :=
  fun _ => ⟨rfl, rfl, rfl⟩

/-- C10: the reasons list of a verdict never contains the same string twice:
each rule contributes at most one reason per field, the fixed templates of
different rules are pairwise distinct, and the dynamic repeated-value reason
starts with a prefix no other reason has. -/
theorem C10_reasons_nodup : ∀ r : IncRecord, ((validate_record r).2).Nodup := by
  intro r
  rw [validate_record_snd]
  exact allReasons_nodup r
